import Mathlib

/-!
Verification of the two orchestration scripts of this repository:
scripts/fine-tune-model.py (fine-tuning driver) and
scripts/convert-humor-model-to-onnx.py (model converter).

The scripts are shallowly embedded: external effects (file system,
standard input, the ML library calls) are passed in as explicit data,
and each script body becomes a pure function from that environment to
the list of observable events it emits together with its final outcome
(normal exit with a code, or an uncaught exception).
-/

/-- A minimal JSON field value, sufficient for the flat
one-object-per-line records of the training dataset: strings and
integers. -/
inductive JValue where
  | jstr (s : String)
  | jnum (n : Int)
  deriving Repr, DecidableEq

/-- A parsed dataset record: the field map of the JSON object on one line. -/
abbrev Record := List (String × JValue)

/-- Final outcome of a script run: a call of exit(code), or an uncaught
Python exception (which terminates the process abnormally). -/
inductive Outcome where
  | exited (code : Nat)
  | raised (exn : String)
  deriving Repr, DecidableEq

/-- Observable events emitted by the fine-tuning script, in order:
console prints, the interactive input prompt, and the external ML
library calls it makes (loading, dataset preparation, training,
evaluation, saving). -/
inductive Event where
  | print (msg : String)
  | input (prompt : String)
  | loadTokenizer (name : String)
  | loadModel (name : String)
  | prepareData
  | train
  | evaluate
  | saveModel (dir : String)
  deriving Repr, DecidableEq

/- ------------------------------------------------------------------
compute_metrics (fine-tune-model.py, lines 92-104)
------------------------------------------------------------------ -/

/-- Index of the first maximal entry of a row of class scores
(numpy argmax over the last axis keeps the first maximum on ties):
helper carrying the index of the current head, the best index so far
and the best value so far. -/
def argmaxGo (i bi : Nat) (bv : ℚ) : List ℚ → Nat
  | [] => bi
  | x :: xs => if bv < x then argmaxGo (i + 1) i x xs else argmaxGo (i + 1) bi bv xs

/-- numpy argmax over one row of class scores; the empty row maps to 0
(numpy raises there, a case the script never produces). -/
def argmaxRow : List ℚ → Nat
  | [] => 0
  | x :: xs => argmaxGo 1 0 x xs

/-- True positives: pairs (label, prediction) both equal to 1, label 1
being the positive class. -/
def truePos (labels preds : List Nat) : Nat :=
  (labels.zip preds).countP (fun p => p.1 = 1 ∧ p.2 = 1)

/-- False positives: label not 1, prediction 1. -/
def falsePos (labels preds : List Nat) : Nat :=
  (labels.zip preds).countP (fun p => p.1 ≠ 1 ∧ p.2 = 1)

/-- False negatives: label 1, prediction not 1. -/
def falseNeg (labels preds : List Nat) : Nat :=
  (labels.zip preds).countP (fun p => p.1 = 1 ∧ p.2 ≠ 1)

/-- Modelled from the spec: sklearn.metrics.accuracy_score, the
fraction of positions where prediction equals label (the sklearn
implementation is external to this repository; the spec fixes the
standard binary-classification formulas). -/
def accuracy_score (labels preds : List Nat) : ℚ :=
  ((labels.zip preds).countP (fun p => p.1 = p.2) : ℚ) / (labels.length : ℚ)

/-- Modelled from the spec: sklearn.metrics.precision_score with
average equal to binary, true positives / (true positives + false
positives), and 0 when that denominator is 0. -/
def precision_score (labels preds : List Nat) : ℚ :=
  let t := truePos labels preds
  let f := falsePos labels preds
  if t + f = 0 then 0 else (t : ℚ) / ((t : ℚ) + (f : ℚ))

/-- Modelled from the spec: sklearn.metrics.recall_score with average
equal to binary, true positives / (true positives + false negatives),
and 0 when that denominator is 0. -/
def recall_score (labels preds : List Nat) : ℚ :=
  let t := truePos labels preds
  let f := falseNeg labels preds
  if t + f = 0 then 0 else (t : ℚ) / ((t : ℚ) + (f : ℚ))

/-- Modelled from the spec: sklearn.metrics.f1_score with average equal
to binary, the harmonic mean of precision and recall (0 when both are
0). -/
def f1_score (labels preds : List Nat) : ℚ :=
  let p := precision_score labels preds
  let r := recall_score labels preds
  if p + r = 0 then 0 else 2 * p * r / (p + r)

/-- The four metrics returned by compute_metrics, in the order of the
returned dict; the last field stands for the dict key recall. -/
structure Metrics where
  accuracy : ℚ
  f1 : ℚ
  precision : ℚ
  recallVal : ℚ
  deriving Repr, DecidableEq

/-- compute_metrics (fine-tune-model.py, lines 92-104): takes the raw
model outputs (one row of class scores per example) and the ground
truth labels, reduces each row with argmax over the last axis, and
computes accuracy, f1, precision and recall with label 1 as the
positive class. -/
def compute_metrics (rawOutputs : List (List ℚ)) (labels : List Nat) : Metrics :=
  let predictions := rawOutputs.map argmaxRow
  { accuracy := accuracy_score labels predictions
    f1 := f1_score labels predictions
    precision := precision_score labels predictions
    recallVal := recall_score labels predictions }

/- ------------------------------------------------------------------
load_training_data (fine-tune-model.py, lines 43-64)
------------------------------------------------------------------ -/

/-- Python's whitespace characters for str.strip. -/
def isPyWs (c : Char) : Bool := c = ' ' ∨ c = '\t' ∨ c = '\n' ∨ c = '\r'

/-- Python's str.strip (an external string method): drops leading and
trailing whitespace. -/
def pyStrip (s : String) : String :=
  String.mk (((s.data.dropWhile isPyWs).reverse.dropWhile isPyWs).reverse)

/-- The line-reading loop of load_training_data (lines 51-55): for each
line of the file, if the stripped line is non-empty the line is passed
to the JSON parser (an external call, here a parameter, which raises on
malformed input) and the result is appended; blank lines are skipped.
Python's str.strip is modelled by pyStrip. -/
def parseLines (parse : String → Except String Record) : List String → Except String (List Record)
  | [] => .ok []
  | l :: ls =>
    if pyStrip l ≠ "" then do
      let r ← parse l
      let rs ← parseLines parse ls
      pure (r :: rs)
    else parseLines parse ls

/-- Python's str.lower, modelled as the ASCII lowercasing of every
character (the prompt answers of interest are ASCII). -/
def pyLower (s : String) : String := String.mk (s.data.map Char.toLower)

/-- The low-data warning prints and the confirmation prompt
(fine-tune-model.py, lines 58-60), for a dataset of n records. -/
def lowDataEvs (n : Nat) : List Event :=
  [Event.print ("⚠️  Warning: Only " ++ toString n ++ " training examples found."),
   Event.print "   Recommendation: Collect 20-30+ feedback samples for best results.",
   Event.input "\nContinue anyway? (y/N): "]

/-- load_training_data (fine-tune-model.py, lines 43-64): checks file
existence (exit 1 with a message when absent), reads and parses the
lines, and when fewer than 20 records were read prints a warning and
asks the operator whether to continue, exiting 0 unless the lowercased
answer is exactly the string y (pyLower models str.lower). Returns the emitted events together
with either an early Outcome or the loaded records. -/
def load_training_data (fileExists : Bool) (dataPath : String)
    (fileLines : List String) (parse : String → Except String Record)
    (response : String) : List Event × Except Outcome (List Record) :=
  if !fileExists then
    ([.print ("❌ Training data not found: " ++ dataPath),
      .print "\nGenerate training data first:",
      .print "  node scripts/export-training-data.js"], .error (.exited 1))
  else
    match parseLines parse fileLines with
    | .error e => ([], .error (.raised e))
    | .ok data =>
      if data.length < 20 then
        if pyLower response ≠ "y" then (lowDataEvs data.length, .error (.exited 0))
        else (lowDataEvs data.length, .ok data)
      else ([], .ok data)

/- ------------------------------------------------------------------
Theorems for C2 and C7
------------------------------------------------------------------ -/

/-- C2: compute_metrics, applied to raw outputs whose rowwise argmax is
the prediction vector [1,0,1,1] against the label vector [1,0,0,1],
returns accuracy 3/4, precision 2/3, recall 1 and F1 4/5. -/
theorem compute_metrics_fixed_example :
    [[(0 : ℚ), 1], [1, 0], [0, 1], [0, 1]].map argmaxRow = [1, 0, 1, 1] ∧
    compute_metrics [[(0 : ℚ), 1], [1, 0], [0, 1], [0, 1]] [1, 0, 0, 1] =
      { accuracy := 3 / 4, f1 := 4 / 5, precision := 2 / 3, recallVal := 1 } := by
  constructor
  · rfl
  · show Metrics.mk _ _ _ _ = _
    simp only [compute_metrics, accuracy_score, f1_score, precision_score, recall_score,
      truePos, falsePos, falseNeg]
    norm_num [List.countP, List.countP.go, argmaxRow, argmaxGo]

/-- C7: the loader's line loop parses exactly the lines that are
non-empty after stripping, in file order, skipping blank lines: it
equals mapping the parser over the filtered line list (in the Except
monad, so a parse failure on any retained line propagates as the
uncaught exception the script would raise). -/
theorem parseLines_eq_mapM_filter (parse : String → Except String Record)
    (lines : List String) :
    parseLines parse lines = (lines.filter (fun l => pyStrip l ≠ "")).mapM parse := by
  induction lines with
  | nil => rfl
  | cons l ls ih =>
    by_cases h : pyStrip l = ""
    · simp [parseLines, h, ih]
    · have hf : List.filter (fun l => decide (pyStrip l ≠ "")) (l :: ls)
          = l :: List.filter (fun l => decide (pyStrip l ≠ "")) ls := by
        simp [h]
      rw [hf, List.mapM_cons, ← ih]
      simp [parseLines, h]

/- ------------------------------------------------------------------
main (fine-tune-model.py, lines 107-224)
------------------------------------------------------------------ -/

/-- The hardcoded base model identifier (fine-tune-model.py, line 128). -/
def base_model : String := "mohameddhiab/humor-no-humor"

/-- Environment of one fine-tuner run: the state of the file system, the
standard-input answer to the confirmation prompt, the external JSON
parser, and the two inputs of the device check (the --gpu flag and
torch.cuda.is_available()). -/
structure Env where
  fileExists : Bool
  dataPath : String
  fileLines : List String
  parse : String → Except String Record
  response : String
  gpuFlag : Bool
  cudaAvailable : Bool

/-- Device selection (fine-tune-model.py, line 122): cuda exactly when
the --gpu flag was given and CUDA is available, cpu otherwise. -/
def selectDevice (gpuFlag cudaAvailable : Bool) : String :=
  if gpuFlag && cudaAvailable then "cuda" else "cpu"

/-- The positive-example count (fine-tune-model.py, line 144):
sum(1 for d in data if d['label'] == 1). The subscript d['label']
raises KeyError when the field is absent, so the count is partial. -/
def countPositive : List Record → Except String Nat
  | [] => .ok 0
  | r :: rs =>
    match r.lookup "label" with
    | none => .error "KeyError: label"
    | some v => do
      let n ← countPositive rs
      pure (if v = .jnum 1 then n + 1 else n)

/-- The part of main before the load_training_data call (lines
117-137): device selection with its print and fall-back warning, then
loading the base tokenizer and model. -/
def fineTunePre (env : Env) : List Event :=
  [Event.print ("\nDevice: " ++ selectDevice env.gpuFlag env.cudaAvailable)] ++
  (if env.gpuFlag && !env.cudaAvailable
    then [Event.print "⚠️  GPU requested but not available, using CPU"] else []) ++
  [Event.loadTokenizer base_model, Event.loadModel base_model]

/-- The part of main from the load_training_data call on (lines
141-224): loading, the class statistics with their partial ratio, then
dataset preparation, training, evaluation and saving. -/
def fineTuneTail (env : Env) : List Event × Outcome :=
  match load_training_data env.fileExists env.dataPath env.fileLines env.parse env.response with
  | (evs, .error o) => (evs, o)
  | (evs, .ok data) =>
    match countPositive data with
    | .error e => (evs, .raised e)
    | .ok positive =>
      let negative := data.length - positive
      if negative = 0 then (evs, .raised "ZeroDivisionError")
      else
        (evs ++
          [Event.prepareData, Event.train, Event.evaluate,
           Event.saveModel "models/humor-detector-custom"], .exited 0)

/-- main (fine-tune-model.py, lines 107-224) as a function from the
environment to the emitted events and the final outcome. The order of
effects follows the source: device selection and its prints (lines
122-125), loading the base tokenizer and model (lines 131-137), loading
the training data (line 141), the class-counting statistics whose ratio
print divides positive by negative (lines 144-148, a ZeroDivisionError
when negative is 0), then dataset preparation, training, evaluation and
saving (lines 152-215). Progress prints that carry no branching
information are not modelled. -/
def fineTuneMain (env : Env) : List Event × Outcome :=
  (fineTunePre env ++ (fineTuneTail env).1, (fineTuneTail env).2)

/- ------------------------------------------------------------------
Theorems for C1 (missing dataset file) and C10 (device selection)
------------------------------------------------------------------ -/

/-- C1, counterexample: with the dataset file absent, the fine-tuner
does exit with status 1 and the error message, but the trace already
contains the loadTokenizer and loadModel calls (main loads the base
model at lines 131-137 before calling load_training_data at line 141),
so the claim that the exit happens before loading any model or
tokenizer is false at this concrete environment. -/
theorem missing_file_after_model_load :
    (fineTuneMain ⟨false, "training-data.jsonl", [], fun _ => .error "unused", "", false, false⟩).2
      = .exited 1 ∧
    Event.loadModel base_model ∈
      (fineTuneMain ⟨false, "training-data.jsonl", [], fun _ => .error "unused", "", false, false⟩).1 ∧
    Event.loadTokenizer base_model ∈
      (fineTuneMain ⟨false, "training-data.jsonl", [], fun _ => .error "unused", "", false, false⟩).1 := by
  refine ⟨rfl, ?_, ?_⟩ <;>
    simp [fineTuneMain, fineTunePre, fineTuneTail, load_training_data, base_model]

/-- C1, amended: for every environment whose dataset file does not
exist, the fine-tuner exits with status 1 after printing the
training-data-not-found message, and neither dataset preparation nor
training is reached — but the base model and tokenizer have already
been loaded by then. -/
theorem missing_file_fatal_exit (env : Env) (h : env.fileExists = false) :
    (fineTuneMain env).2 = .exited 1 ∧
    Event.print ("❌ Training data not found: " ++ env.dataPath) ∈ (fineTuneMain env).1 ∧
    Event.prepareData ∉ (fineTuneMain env).1 ∧
    Event.train ∉ (fineTuneMain env).1 ∧
    Event.loadModel base_model ∈ (fineTuneMain env).1 := by
  obtain ⟨fe, dp, fl, p, resp, g, c⟩ := env
  subst h
  cases g <;> cases c <;>
    simp [fineTuneMain, fineTunePre, fineTuneTail, load_training_data, selectDevice, base_model]

/-- C1, witness for the amended theorem at a concrete environment. -/
theorem missing_file_fatal_exit_witness :
    (fineTuneMain ⟨false, "training-data.jsonl", [], fun _ => .error "unused", "", true, false⟩).2
      = .exited 1 ∧
    Event.print ("❌ Training data not found: " ++ "training-data.jsonl") ∈
      (fineTuneMain ⟨false, "training-data.jsonl", [], fun _ => .error "unused", "", true, false⟩).1 ∧
    Event.prepareData ∉
      (fineTuneMain ⟨false, "training-data.jsonl", [], fun _ => .error "unused", "", true, false⟩).1 ∧
    Event.train ∉
      (fineTuneMain ⟨false, "training-data.jsonl", [], fun _ => .error "unused", "", true, false⟩).1 ∧
    Event.loadModel base_model ∈
      (fineTuneMain ⟨false, "training-data.jsonl", [], fun _ => .error "unused", "", true, false⟩).1 :=
  missing_file_fatal_exit ⟨false, "training-data.jsonl", [], fun _ => .error "unused", "", true, false⟩ rfl

/-- C10: the training device is cuda exactly when the --gpu flag is
given and CUDA is available, and cpu in every other case; the device
line printed uses this selection; and when the flag is given without an
available accelerator, the fall-back warning is printed and the run
still proceeds to load the base model instead of failing. -/
theorem device_selection (env : Env) :
    (selectDevice env.gpuFlag env.cudaAvailable = "cuda" ↔
      env.gpuFlag = true ∧ env.cudaAvailable = true) ∧
    (¬(env.gpuFlag = true ∧ env.cudaAvailable = true) →
      selectDevice env.gpuFlag env.cudaAvailable = "cpu") ∧
    Event.print ("\nDevice: " ++ selectDevice env.gpuFlag env.cudaAvailable)
      ∈ (fineTuneMain env).1 ∧
    (env.gpuFlag = true → env.cudaAvailable = false →
      Event.print "⚠️  GPU requested but not available, using CPU" ∈ (fineTuneMain env).1 ∧
      Event.loadModel base_model ∈ (fineTuneMain env).1) := by
  obtain ⟨fe, dp, fl, p, resp, g, c⟩ := env
  refine ⟨?_, ?_, ?_, ?_⟩ <;>
    cases g <;> cases c <;>
      simp [selectDevice, fineTuneMain, fineTunePre]

/-- C10, witness: with the --gpu flag set and CUDA unavailable the
warning is printed, the run proceeds to the model load, and the
selected device is cpu. -/
theorem device_selection_witness :
    Event.print "⚠️  GPU requested but not available, using CPU" ∈
      (fineTuneMain ⟨true, "d", [], fun _ => .error "unused", "", true, false⟩).1 ∧
    Event.loadModel base_model ∈
      (fineTuneMain ⟨true, "d", [], fun _ => .error "unused", "", true, false⟩).1 :=
  (device_selection ⟨true, "d", [], fun _ => .error "unused", "", true, false⟩).2.2.2 rfl rfl

/- ------------------------------------------------------------------
Theorems for C4 (low-data confirmation gate)
------------------------------------------------------------------ -/

/-- Helper: neither of the library-call markers appears among the
events emitted before load_training_data. -/
theorem fineTunePre_no_train (env : Env) :
    Event.train ∉ fineTunePre env ∧ Event.prepareData ∉ fineTunePre env := by
  unfold fineTunePre
  cases env.gpuFlag && !env.cudaAvailable <;> simp

/-- C4: whenever the loaded dataset has fewer than 20 records, the
fine-tuner prints the low-data warning and prompts the operator; any
answer whose lowercasing is not the single letter y makes the process
exit cleanly with status 0 without training, and training is reached
only when the lowercased answer is exactly y. -/
theorem low_data_confirmation (env : Env) (data : List Record)
    (hex : env.fileExists = true)
    (hp : parseLines env.parse env.fileLines = .ok data)
    (hlen : data.length < 20) :
    Event.print ("⚠️  Warning: Only " ++ toString data.length ++ " training examples found.")
      ∈ (fineTuneMain env).1 ∧
    Event.input "\nContinue anyway? (y/N): " ∈ (fineTuneMain env).1 ∧
    (pyLower env.response ≠ "y" →
      (fineTuneMain env).2 = .exited 0 ∧ Event.train ∉ (fineTuneMain env).1) ∧
    (Event.train ∈ (fineTuneMain env).1 → pyLower env.response = "y") := by
  have hnp := fineTunePre_no_train env
  by_cases hr : pyLower env.response = "y"
  · have hload : load_training_data env.fileExists env.dataPath env.fileLines env.parse
        env.response = (lowDataEvs data.length, .ok data) := by
      simp [load_training_data, hex, hp, hlen, hr]
    rcases hc : countPositive data with e | pos
    · refine ⟨?_, ?_, ?_, fun _ => hr⟩ <;>
        simp [fineTuneMain, fineTuneTail, hload, hc, lowDataEvs, hr]
    · by_cases hz : data.length - pos = 0
      · refine ⟨?_, ?_, ?_, fun _ => hr⟩ <;>
          simp [fineTuneMain, fineTuneTail, hload, hc, hz, lowDataEvs, hr]
      · refine ⟨?_, ?_, ?_, fun _ => hr⟩ <;>
          simp [fineTuneMain, fineTuneTail, hload, hc, hz, lowDataEvs, hr]
  · have hload : load_training_data env.fileExists env.dataPath env.fileLines env.parse
        env.response = (lowDataEvs data.length, .error (.exited 0)) := by
      simp [load_training_data, hex, hp, hlen, hr]
    have htr : Event.train ∉ (fineTuneMain env).1 := by
      simp [fineTuneMain, fineTuneTail, hload, lowDataEvs, hnp.1]
    refine ⟨?_, ?_, fun _ => ⟨?_, htr⟩, fun hmem => absurd hmem htr⟩ <;>
      simp [fineTuneMain, fineTuneTail, hload, lowDataEvs]

/-- C4, witness: an empty dataset (0 records, fewer than 20) with the
answer n exits with status 0, after the warning and the prompt, without
training. -/
theorem low_data_confirmation_witness :
    (Event.print ("⚠️  Warning: Only " ++ toString (List.length ([] : List Record)) ++ " training examples found.")
      ∈ (fineTuneMain ⟨true, "d", [], fun _ => .error "unused", "n", false, false⟩).1 ∧
    Event.input "\nContinue anyway? (y/N): "
      ∈ (fineTuneMain ⟨true, "d", [], fun _ => .error "unused", "n", false, false⟩).1 ∧
    ((fineTuneMain ⟨true, "d", [], fun _ => .error "unused", "n", false, false⟩).2 = .exited 0 ∧
      Event.train ∉ (fineTuneMain ⟨true, "d", [], fun _ => .error "unused", "n", false, false⟩).1)) := by
  have h := low_data_confirmation ⟨true, "d", [], fun _ => .error "unused", "n", false, false⟩ []
    rfl rfl (by decide)
  exact ⟨h.1, h.2.1, h.2.2.1 (by decide)⟩

/- ------------------------------------------------------------------
Theorems for C9 (class-ratio division by zero)
------------------------------------------------------------------ -/

/-- Helper: when every record carries label 1, the positive count
succeeds and equals the dataset size. -/
theorem countPositive_all_one (data : List Record)
    (h : ∀ r ∈ data, r.lookup "label" = some (JValue.jnum 1)) :
    countPositive data = .ok data.length := by
  induction data with
  | nil => rfl
  | cons r rs ih =>
    have hr := h r (by simp)
    have hrs : ∀ x ∈ rs, x.lookup "label" = some (JValue.jnum 1) :=
      fun x hx => h x (List.mem_cons_of_mem _ hx)
    simp [countPositive, hr, ih hrs]

/-- Helper: when every record carries label 0 or label 1, the positive
count succeeds and equals the number of label-1 records, and the two
label counts add up to the dataset size. -/
theorem countPositive_wf (data : List Record)
    (h : ∀ r ∈ data, r.lookup "label" = some (JValue.jnum 0) ∨
      r.lookup "label" = some (JValue.jnum 1)) :
    countPositive data
      = .ok (data.countP (fun r => decide (r.lookup "label" = some (JValue.jnum 1)))) ∧
    data.countP (fun r => decide (r.lookup "label" = some (JValue.jnum 1))) +
      data.countP (fun r => decide (r.lookup "label" = some (JValue.jnum 0)))
      = data.length := by
  induction data with
  | nil => simp [countPositive]
  | cons r rs ih =>
    have hrs : ∀ x ∈ rs, x.lookup "label" = some (JValue.jnum 0) ∨
        x.lookup "label" = some (JValue.jnum 1) :=
      fun x hx => h x (List.mem_cons_of_mem _ hx)
    obtain ⟨ih1, ih2⟩ := ih hrs
    rcases h r (by simp) with h0 | h1
    · refine ⟨?_, ?_⟩
      · simp [countPositive, h0, ih1]
      · simp only [List.countP_cons, h0]
        simp
        omega
    · refine ⟨?_, ?_⟩
      · simp [countPositive, h1, ih1]
      · simp only [List.countP_cons, h1]
        simp
        omega

/-- C9: under the run conditions (dataset file present, lines parsed,
prompt passed), a dataset whose every record has label 1 drives the
class-ratio print of main (line 148) into an uncaught ZeroDivisionError
before dataset preparation or training; and for label-0-or-1 datasets
the error is avoided exactly when at least one record has label 0. -/
theorem all_positive_zero_division (env : Env) (data : List Record)
    (hex : env.fileExists = true)
    (hp : parseLines env.parse env.fileLines = .ok data)
    (hgate : 20 ≤ data.length ∨ pyLower env.response = "y") :
    ((∀ r ∈ data, r.lookup "label" = some (JValue.jnum 1)) →
      (fineTuneMain env).2 = .raised "ZeroDivisionError" ∧
      Event.prepareData ∉ (fineTuneMain env).1 ∧
      Event.train ∉ (fineTuneMain env).1) ∧
    ((∀ r ∈ data, r.lookup "label" = some (JValue.jnum 0) ∨
        r.lookup "label" = some (JValue.jnum 1)) →
      ((fineTuneMain env).2 ≠ .raised "ZeroDivisionError" ↔
        ∃ r ∈ data, r.lookup "label" = some (JValue.jnum 0))) := by
  have hnp := fineTunePre_no_train env
  have hload : load_training_data env.fileExists env.dataPath env.fileLines env.parse
      env.response
      = ((if data.length < 20 then lowDataEvs data.length else []), .ok data) := by
    rcases hgate with hge | hy
    · simp [load_training_data, hex, hp, Nat.not_lt.mpr hge]
    · by_cases hl : data.length < 20 <;> simp [load_training_data, hex, hp, hl, hy]
  constructor
  · intro hall
    have hcp := countPositive_all_one data hall
    refine ⟨?_, ?_, ?_⟩ <;>
      by_cases hl : data.length < 20 <;>
        simp [fineTuneMain, fineTuneTail, hload, hcp, hl, lowDataEvs, hnp.1, hnp.2]
  · intro hwf
    obtain ⟨hcp, hsum⟩ := countPositive_wf data hwf
    by_cases hz : data.length
        - data.countP (fun r => decide (r.lookup "label" = some (JValue.jnum 1))) = 0
    · have hout : (fineTuneMain env).2 = .raised "ZeroDivisionError" := by
        simp [fineTuneMain, fineTuneTail, hload, hcp, hz]
      have hc0 : data.countP (fun r => decide (r.lookup "label" = some (JValue.jnum 0))) = 0 := by
        omega
      refine iff_of_false (by simp [hout]) ?_
      rintro ⟨r, hr, hr0⟩
      have := List.countP_eq_zero.mp hc0 r hr
      simp [hr0] at this
    · have hout : (fineTuneMain env).2 = .exited 0 := by
        simp [fineTuneMain, fineTuneTail, hload, hcp, hz]
      have hc0 : 0 < data.countP (fun r => decide (r.lookup "label" = some (JValue.jnum 0))) := by
        omega
      refine iff_of_true (by simp [hout]) ?_
      obtain ⟨r, hr, hr0⟩ := List.countP_pos_iff.mp hc0
      exact ⟨r, hr, by simpa using hr0⟩

/-- C9, witness: the empty dataset (vacuously all labels 1, prompt
answered y) drives the run into the uncaught ZeroDivisionError with
neither dataset preparation nor training reached. -/
theorem all_positive_zero_division_witness :
    (fineTuneMain ⟨true, "d", [], fun _ => .error "unused", "y", false, false⟩).2
      = .raised "ZeroDivisionError" ∧
    Event.prepareData ∉
      (fineTuneMain ⟨true, "d", [], fun _ => .error "unused", "y", false, false⟩).1 ∧
    Event.train ∉
      (fineTuneMain ⟨true, "d", [], fun _ => .error "unused", "y", false, false⟩).1 :=
  (all_positive_zero_division ⟨true, "d", [], fun _ => .error "unused", "y", false, false⟩ []
    rfl rfl (Or.inr (by decide))).1 (by simp)

/- ------------------------------------------------------------------
Theorems for C8 (record validation)
------------------------------------------------------------------ -/

/-- Whitespace skipping for the JSON parser. -/
def skipWs : List Char → List Char
  | [] => []
  | c :: cs => if c = ' ' ∨ c = '\t' ∨ c = '\n' ∨ c = '\r' then skipWs cs else c :: cs

/-- Reads a double-quoted string body up to the closing quote (no
escape sequences, which the dataset records do not need). -/
def takeStr : List Char → Option (String × List Char)
  | [] => none
  | c :: cs =>
    if c = '"' then some ("", cs)
    else
      match takeStr cs with
      | some (s, rest) => some (String.mk (c :: s.data), rest)
      | none => none

/-- Splits a leading run of decimal digits from the input. -/
def takeDigits : List Char → List Char × List Char
  | [] => ([], [])
  | c :: cs =>
    if c.isDigit then
      let (ds, r) := takeDigits cs
      (c :: ds, r)
    else ([], c :: cs)

/-- Numeric value of a digit list. -/
def digitsToNat : List Char → Nat → Nat
  | [], acc => acc
  | c :: cs, acc => digitsToNat cs (acc * 10 + (c.toNat - '0'.toNat))

/-- Parses one JSON value: a quoted string or an (optionally negative)
integer. -/
def parseJValue (cs : List Char) : Option (JValue × List Char) :=
  match cs with
  | [] => none
  | c :: rest =>
    if c = '"' then
      match takeStr rest with
      | some (s, r) => some (.jstr s, r)
      | none => none
    else if c = '-' then
      match takeDigits rest with
      | ([], _) => none
      | (ds, r) => some (.jnum (-(digitsToNat ds 0 : Int)), r)
    else if c.isDigit then
      let (ds, r) := takeDigits (c :: rest)
      some (.jnum (digitsToNat ds 0 : Int), r)
    else none

/-- Parses the members of a JSON object after the opening brace,
fuelled by the input length. -/
def parseMembers (fuel : Nat) (cs : List Char) (first : Bool) :
    Option (Record × List Char) :=
  match fuel with
  | 0 => none
  | fuel + 1 =>
    match skipWs cs with
    | '\x7d' :: r => if first then some ([], r) else none
    | cs₁ =>
      let cs₂ := if first then cs₁ else
        match cs₁ with
        | ',' :: r => skipWs r
        | _ => []
      match cs₂ with
      | '"' :: r =>
        match takeStr r with
        | some (k, r₁) =>
          match skipWs r₁ with
          | ':' :: r₂ =>
            match parseJValue (skipWs r₂) with
            | some (v, r₃) =>
              match skipWs r₃ with
              | '\x7d' :: r₄ => some ([(k, v)], r₄)
              | ',' :: _ =>
                match parseMembers fuel (skipWs r₃) false with
                | some (fields, r₄) => some ((k, v) :: fields, r₄)
                | none => none
              | _ => none
            | none => none
          | _ => none
        | none => none
      | _ => none

/-- Modelled from the spec: Python's json.loads (an external library
call), restricted to the flat objects of string and integer values that
the spec gives as the dataset record format; raises (errors) on
anything that is not one such object. -/
def json_loads (line : String) : Except String Record :=
  match skipWs line.data with
  | '\x7b' :: r =>
    match parseMembers (r.length + 1) r true with
    | some (fields, rest) =>
      if skipWs rest = [] then .ok fields
      else .error "json.decoder.JSONDecodeError"
    | none => .error "json.decoder.JSONDecodeError"
  | _ => .error "json.decoder.JSONDecodeError"

/-- Follows the spec's words (not the source): a record contains the
required fields when it has a string field text and an integer field
label whose value is 0 or 1. The spec claims dataset loading checks
this; the source has no such check, so this definition exists only to
state that claim. -/
def hasRequiredFields (r : Record) : Bool :=
  (match r.lookup "text" with
   | some (.jstr _) => true
   | _ => false) &&
  (match r.lookup "label" with
   | some (.jnum 0) => true
   | some (.jnum 1) => true
   | _ => false)

/-- C8, counterexample: a dataset whose single line parses to a record
with neither a text field nor a 0/1 label is accepted unchanged by
load_training_data (with the prompt answered y), so the loader performs
no required-field check on records. -/
theorem no_required_field_check :
    (load_training_data true "training-data.jsonl" ["\x7b\"label\": 2\x7d"] json_loads "y").2
      = .ok [[("label", JValue.jnum 2)]] ∧
    hasRequiredFields [("label", JValue.jnum 2)] = false := by
  constructor
  · rfl
  · rfl

/-- C8, amended: dataset loading performs no validation on records at
all: whenever it returns a record list, that list is exactly the
JSON-parsed non-blank lines, unmodified and unchecked (field presence
is only assumed later, at the point of access). -/
theorem loader_returns_parsed_records_unchecked (dataPath : String)
    (fileLines : List String) (parse : String → Except String Record)
    (response : String) (data : List Record)
    (h : (load_training_data true dataPath fileLines parse response).2 = .ok data) :
    parseLines parse fileLines = .ok data := by
  revert h
  unfold load_training_data
  rcases hp : parseLines parse fileLines with e | d
  · simp
  · by_cases hl : d.length < 20 <;> by_cases hr : pyLower response ≠ "y" <;>
      simp +contextual [hl, hr]

/-- C8, witness for the amended theorem at the counterexample input. -/
theorem loader_returns_parsed_records_unchecked_witness :
    parseLines json_loads ["\x7b\"label\": 2\x7d"] = .ok [[("label", JValue.jnum 2)]] :=
  loader_returns_parsed_records_unchecked "training-data.jsonl"
    ["\x7b\"label\": 2\x7d"] json_loads "y" [[("label", JValue.jnum 2)]] rfl

/- ------------------------------------------------------------------
prepare_dataset (fine-tune-model.py, lines 67-89) and
theorems for C3 (train/validation partition)
------------------------------------------------------------------ -/

/-- Modelled from the spec: a deterministic pseudo-random number step (a
linear congruential generator) standing in for the external datasets
library's seeded generator, whose exact algorithm is outside this
repository. -/
def lcg (s : Nat) : Nat := (1103515245 * s + 12345) % 2147483648

/-- Modelled from the spec: the deterministic seeded permutation of the
rows performed inside the external train_test_split; every element of
the input is inserted at a seed-derived position, so the result is a
permutation of the input. -/
def seededShuffle {α : Type} (seed : Nat) : List α → List α
  | [] => []
  | x :: xs =>
    let ys := seededShuffle (lcg seed) xs
    ys.insertIdx (seed % (ys.length + 1)) x

/-- Helper: the seeded shuffle permutes its input. -/
theorem seededShuffle_perm {α : Type} (seed : Nat) (l : List α) :
    List.Perm (seededShuffle seed l) l := by
  induction l generalizing seed with
  | nil => exact List.Perm.refl _
  | cons x xs ih =>
    have h1 := ih (lcg seed)
    have hle : seed % ((seededShuffle (lcg seed) xs).length + 1)
        ≤ (seededShuffle (lcg seed) xs).length :=
      Nat.lt_succ_iff.mp (Nat.mod_lt _ (Nat.succ_pos _))
    exact (List.perm_insertIdx x _ hle).trans (List.Perm.cons x h1)

/-- The two named partitions the external split returns (the dict with
keys train and test). -/
structure SplitResult (α : Type) where
  train : List α
  test : List α

/-- Ceiling of n times a non-negative fraction q, in integer
arithmetic. -/
def ceilMul (n : Nat) (q : ℚ) : Nat := (n * q.num.toNat + (q.den - 1)) / q.den

/-- Modelled from the spec: the external datasets library's
train_test_split (fine-tune-model.py, line 87) — a deterministic
permutation of the rows driven by the fixed seed, then splitting off
the test fraction (the ceiling of row count times test_size) as the
test partition, the rest as the train partition. -/
def train_test_split {α : Type} (test_size : ℚ) (seed : Nat) (rows : List α) : SplitResult α :=
  let shuffled := seededShuffle seed rows
  let nTest := ceilMul rows.length test_size
  { train := shuffled.drop nTest, test := shuffled.take nTest }

/-- Helper: train and test together are a permutation of the rows. -/
theorem train_test_split_perm {α : Type} (q : ℚ) (seed : Nat) (rows : List α) :
    List.Perm
      ((train_test_split q seed rows).train ++ (train_test_split q seed rows).test)
      rows := by
  unfold train_test_split
  simp only
  exact (List.perm_append_comm.trans
    (by rw [List.take_append_drop])).trans (seededShuffle_perm seed rows)

/-- The Dataset.from_dict step (fine-tune-model.py, lines 70-73): the
two comprehensions item['text'] and item['label'] over the records; a
record without either field makes the subscript raise KeyError. -/
def datasetOf : List Record → Except String (List (JValue × JValue))
  | [] => .ok []
  | r :: rs =>
    match r.lookup "text", r.lookup "label" with
    | some t, some l => do
      let rest ← datasetOf rs
      pure ((t, l) :: rest)
    | _, _ => .error "KeyError"

/-- Helper: the from_dict step keeps one row per record. -/
theorem datasetOf_length (data : List Record) (rows : List (JValue × JValue))
    (h : datasetOf data = .ok rows) : rows.length = data.length := by
  induction data generalizing rows with
  | nil =>
    simp [datasetOf] at h
    simp [← h]
  | cons r rs ih =>
    unfold datasetOf at h
    rcases ht : r.lookup "text" with _ | t <;> rcases hl : r.lookup "label" with _ | l <;>
      simp [ht, hl] at h
    rcases hrest : datasetOf rs with e | rest <;> simp [hrest] at h
    simp [← h, ih rest hrest]

/-- prepare_dataset (fine-tune-model.py, lines 67-89): wraps the
records into rows (Dataset.from_dict), tokenizes every row keeping the
row itself (Dataset.map adds the token columns produced by the external
tokenizer, a parameter, on the row text), and splits with the fixed
seed 42 and the validation fraction val_split (default 0.1 in the
source), returning the pair (train, test). -/
def prepare_dataset (data : List Record) (tokenizer : JValue → List Nat)
    (val_split : ℚ) :
    Except String (List ((JValue × JValue) × List Nat) × List ((JValue × JValue) × List Nat)) := do
  let rows ← datasetOf data
  let tokenized := rows.map (fun row => (row, tokenizer row.1))
  let split := train_test_split val_split 42 tokenized
  pure (split.train, split.test)

/-- C3: when the records wrap into rows, prepare_dataset returns the
fixed-seed split of the tokenized rows; train and validation together
are a permutation of the tokenized rows (so every example lands in
exactly one partition, with multiplicity — no overlap, no omission),
the partition sizes add up to the dataset size, every row's
multiplicity is preserved, and a second run on the same input returns
the same pair (determinism is definitional here: the model is a pure
function of the fixed seed and fraction). -/
theorem train_val_split_partition (data : List Record)
    (tokenizer : JValue → List Nat) (val_split : ℚ)
    (rows : List (JValue × JValue)) (hd : datasetOf data = .ok rows) :
    prepare_dataset data tokenizer val_split =
      .ok ((train_test_split val_split 42 (rows.map (fun row => (row, tokenizer row.1)))).train,
           (train_test_split val_split 42 (rows.map (fun row => (row, tokenizer row.1)))).test) ∧
    List.Perm
      ((train_test_split val_split 42 (rows.map (fun row => (row, tokenizer row.1)))).train ++
        (train_test_split val_split 42 (rows.map (fun row => (row, tokenizer row.1)))).test)
      (rows.map (fun row => (row, tokenizer row.1))) ∧
    (train_test_split val_split 42 (rows.map (fun row => (row, tokenizer row.1)))).train.length +
      (train_test_split val_split 42 (rows.map (fun row => (row, tokenizer row.1)))).test.length
      = data.length ∧
    (∀ x : (JValue × JValue) × List Nat,
      List.countP (fun y => decide (y = x))
          ((train_test_split val_split 42 (rows.map (fun row => (row, tokenizer row.1)))).train) +
        List.countP (fun y => decide (y = x))
          ((train_test_split val_split 42 (rows.map (fun row => (row, tokenizer row.1)))).test)
        = List.countP (fun y => decide (y = x)) (rows.map (fun row => (row, tokenizer row.1)))) ∧
    prepare_dataset data tokenizer val_split = prepare_dataset data tokenizer val_split := by
  have hperm := train_test_split_perm val_split 42 (rows.map (fun row => (row, tokenizer row.1)))
  refine ⟨?_, hperm, ?_, ?_, rfl⟩
  · simp [prepare_dataset, hd]
  · have hlen := hperm.length_eq
    rw [List.length_append] at hlen
    rw [hlen, List.length_map, datasetOf_length data rows hd]
  · intro x
    have := hperm.countP_eq (fun y => decide (y = x))
    rwa [List.countP_append] at this

/-- C3, witness: the partition equation of the split at a concrete
one-record dataset. -/
theorem train_val_split_partition_witness :
    prepare_dataset [[("text", JValue.jstr "a"), ("label", JValue.jnum 1)]]
        (fun _ => []) (1 / 10) =
      .ok ((train_test_split (1 / 10) 42
              ([((JValue.jstr "a"), (JValue.jnum 1))].map (fun row => (row, ([] : List Nat))))).train,
           (train_test_split (1 / 10) 42
              ([((JValue.jstr "a"), (JValue.jnum 1))].map (fun row => (row, ([] : List Nat))))).test) :=
  (train_val_split_partition [[("text", JValue.jstr "a"), ("label", JValue.jnum 1)]]
    (fun _ => []) (1 / 10) [((JValue.jstr "a"), (JValue.jnum 1))] rfl).1

/- ------------------------------------------------------------------
convert_model (convert-humor-model-to-onnx.py) and
theorems for C6 (top-level exception boundary) and C5 (smoke test)
------------------------------------------------------------------ -/

/-- Environment of one converter run: the result of each of the four
external pipeline steps in the try block (convert-humor-model-to-onnx.py,
lines 39-85): loading the model and tokenizer, the ONNX export, saving,
and the smoke test. -/
structure ConvEnv where
  loadStep : Except String Unit
  exportStep : Except String Unit
  saveStep : Except String Unit
  smokeStep : Except String Unit

/-- The body of the converter's try block (lines 39-85): the four
steps in order, the first failure short-circuiting. -/
def convertPipeline (env : ConvEnv) : Except String Unit := do
  env.loadStep
  env.exportStep
  env.saveStep
  env.smokeStep

/-- convert_model (convert-humor-model-to-onnx.py, lines 17-91): runs
the pipeline inside one top-level try; on any exception prints the
error message and the stack trace (traceback.print_exc, lines 87-90)
and exits with status 1; otherwise the script finishes with status 0. -/
def convert_model (env : ConvEnv) : List String × Outcome :=
  match convertPipeline env with
  | .ok _ => (["✅ Model conversion complete!"], .exited 0)
  | .error e =>
    (["\n✗ Error during conversion: " ++ e, "traceback.print_exc"], .exited 1)

/-- C6: an exception in any of the four pipeline steps (load, export,
save, smoke test), the earlier steps having succeeded, is caught by the
top-level handler: the error message and the stack trace are printed
and the process exits with the non-zero status 1. -/
theorem converter_catches_pipeline_exceptions (env : ConvEnv) (e : String)
    (h : env.loadStep = .error e ∨
      (env.loadStep = .ok () ∧ env.exportStep = .error e) ∨
      (env.loadStep = .ok () ∧ env.exportStep = .ok () ∧ env.saveStep = .error e) ∨
      (env.loadStep = .ok () ∧ env.exportStep = .ok () ∧ env.saveStep = .ok () ∧
        env.smokeStep = .error e)) :
    (convert_model env).2 = .exited 1 ∧
    ("\n✗ Error during conversion: " ++ e) ∈ (convert_model env).1 ∧
    "traceback.print_exc" ∈ (convert_model env).1 := by
  obtain ⟨l, x, s, k⟩ := env
  rcases h with h | ⟨h1, h⟩ | ⟨h1, h2, h⟩ | ⟨h1, h2, h3, h⟩ <;>
    simp_all [convert_model, convertPipeline, Bind.bind, Except.bind]

/-- C6, witness: a failing load step is caught, printed with the
traceback, and turned into exit status 1. -/
theorem converter_catches_pipeline_exceptions_witness :
    (convert_model ⟨.error "boom", .ok (), .ok (), .ok ()⟩).2 = .exited 1 ∧
    ("\n✗ Error during conversion: " ++ "boom")
      ∈ (convert_model ⟨.error "boom", .ok (), .ok (), .ok ()⟩).1 ∧
    "traceback.print_exc" ∈ (convert_model ⟨.error "boom", .ok (), .ok (), .ok ()⟩).1 :=
  converter_catches_pipeline_exceptions ⟨.error "boom", .ok (), .ok (), .ok ()⟩ "boom"
    (Or.inl rfl)

/-- The three fixed smoke-test sentences
(convert-humor-model-to-onnx.py, lines 62-66). -/
def test_texts : List String :=
  ["This is hilarious! I can\x27t stop laughing!",
   "The quarterly financial report shows steady growth.",
   "Why did the chicken cross the road? To get to the other side!"]

/-- torch.nn.functional.softmax over the two class logits (line 73),
evaluated at class i. -/
noncomputable def softmax2 (v : Fin 2 → ℝ) (i : Fin 2) : ℝ :=
  Real.exp (v i) / (Real.exp (v 0) + Real.exp (v 1))

/-- torch.argmax over the two class logits (line 72); ties keep the
first class, as in torch. -/
noncomputable def torchArgmax2 (v : Fin 2 → ℝ) : Fin 2 :=
  if v 0 < v 1 then 1 else 0

/-- The smoke-test loop (lines 68-79): each of the three fixed
sentences is tokenized and run through the exported model (the
composite is the parameter logitsOf, the external model), and yields
the pair of the predicted label (id2label of the argmax class, line 75)
and the confidence (the softmax probability of the argmax class, line
76). -/
noncomputable def convertSmokeTest (logitsOf : String → Fin 2 → ℝ)
    (id2label : Fin 2 → String) : List (String × ℝ) :=
  test_texts.map (fun t =>
    (id2label (torchArgmax2 (logitsOf t)), softmax2 (logitsOf t) (torchArgmax2 (logitsOf t))))

/-- Helper: a softmax probability is non-negative. -/
theorem softmax2_nonneg (v : Fin 2 → ℝ) (i : Fin 2) : 0 ≤ softmax2 v i := by
  unfold softmax2
  have h0 := Real.exp_pos (v 0)
  have h1 := Real.exp_pos (v 1)
  positivity

/-- Helper: a softmax probability is at most one. -/
theorem softmax2_le_one (v : Fin 2 → ℝ) (i : Fin 2) : softmax2 v i ≤ 1 := by
  unfold softmax2
  rw [div_le_one (by positivity)]
  fin_cases i
  · exact le_add_of_nonneg_right (Real.exp_pos _).le
  · exact le_add_of_nonneg_left (Real.exp_pos _).le

/-- C5: the converter's smoke test runs exactly the three fixed
sentences, and every produced entry is one (label, confidence) pair
whose confidence — the softmax probability of the argmax class — lies
in the closed interval from 0 to 1, for every model and label map. -/
theorem smoke_test_label_confidence (logitsOf : String → Fin 2 → ℝ)
    (id2label : Fin 2 → String) (p : String × ℝ)
    (hp : p ∈ convertSmokeTest logitsOf id2label) :
    (convertSmokeTest logitsOf id2label).length = 3 ∧ 0 ≤ p.2 ∧ p.2 ≤ 1 := by
  refine ⟨by simp [convertSmokeTest, test_texts], ?_, ?_⟩ <;>
  · obtain ⟨t, ht, hpt⟩ := List.mem_map.mp hp
    rw [← hpt]
    first
      | exact softmax2_nonneg (logitsOf t) (torchArgmax2 (logitsOf t))
      | exact softmax2_le_one (logitsOf t) (torchArgmax2 (logitsOf t))

/-- C5, witness: the all-zero-logits model produces three entries whose
confidences obey the bounds. -/
theorem smoke_test_label_confidence_witness :
    (convertSmokeTest (fun _ _ => 0) (fun _ => "HUMOR")).length = 3 ∧
    0 ≤ (("HUMOR", softmax2 (fun _ => (0 : ℝ)) (torchArgmax2 (fun _ => (0 : ℝ)))) : String × ℝ).2 ∧
    (("HUMOR", softmax2 (fun _ => (0 : ℝ)) (torchArgmax2 (fun _ => (0 : ℝ)))) : String × ℝ).2 ≤ 1 :=
  smoke_test_label_confidence (fun _ _ => 0) (fun _ => "HUMOR")
    ("HUMOR", softmax2 (fun _ => (0 : ℝ)) (torchArgmax2 (fun _ => (0 : ℝ))))
    (by simp [convertSmokeTest, test_texts])
